import Mathlib

/-
Verification of the kidsevents aggregation pipeline.

Shallow embedding of the core pipeline of the repository:
  * scrapers/data_aggregator.py  (DataAggregator: dedup via add_events,
    validation via validate_events, enrichment driver)
  * scrapers/place_id_lookup.py  (PlaceIDLookup: cached, rate limited
    Google Places lookups and venue enrichment)
  * scrapers/split_by_week.py    (weekly sharding of the canonical feed)

Modelling conventions, used throughout:
  * Python dict keys that may be absent are `Option` fields; `none` is
    "key not present".
  * For the dedup fingerprint, Python strings are modelled as `List Char`
    so that `str.lower()` is `List.map Char.toLower`; the md5 hexdigest
    taken in `generate_event_hash` and `_generate_cache_key` is modelled
    as the identity on the (lowered) key string, i.e. md5 is assumed
    collision free on the keys that occur.
  * Latitude/longitude values are only ever copied around and tested for
    Python truthiness (`not lat`), never used in floating point
    arithmetic, so they are modelled as `Int` with `0` the falsy value.
  * Wall clock fields (`looked_up_at`, rate-limit sleeping) have no
    bearing on the verified claims and are not modelled.
  * File I/O of the cache is modelled by a `disk` component of the state
    that `_save_cache` overwrites with the in-memory cache.
-/

namespace KidsEvents

/-- Python strings (where the code manipulates them), modelled as lists
of characters so that everything reduces in the kernel. -/
abbrev Str := List Char

/-- Python `str.lower()`. -/
def strLower (s : Str) : Str := s.map Char.toLower

/-- Python `str.strip()`: drop whitespace from both ends. -/
def pyStrip (s : Str) : Str :=
  ((s.dropWhile Char.isWhitespace).reverse.dropWhile Char.isWhitespace).reverse

/-! ### Dedup model: DataAggregator.generate_event_hash / is_duplicate / add_events -/

namespace Dedup

/-- The part of a venue dict read by the dedup fingerprint (`venue['name']`). -/
structure Venue where
  name : Str
  deriving DecidableEq, Repr

/-- An event record as seen by `add_events`: the four fields read by
`generate_event_hash` are required (the Python code raises `KeyError`
otherwise), `id` and `source` may be absent. -/
structure Event where
  title : Str
  date : Str
  start_time : Str
  venue : Venue
  id : Option Str := none
  source : Option Str := none
  deriving DecidableEq, Repr

/-- `DataAggregator.generate_event_hash`: the key
`f"{title}_{date}_{start_time}_{venue['name']}"` lowered; the md5
hexdigest of the lowered key is modelled as the lowered key itself. -/
def generate_event_hash (e : Event) : Str :=
  strLower (e.title ++ ['_'] ++ e.date ++ ['_'] ++ e.start_time ++ ['_'] ++ e.venue.name)

/-- The mutable state of a `DataAggregator`: its event list and the
`seen_hashes` set (modelled as a list). -/
structure AggState where
  events : List Event := []
  seen_hashes : List Str := []
  deriving DecidableEq, Repr

/-- The fresh aggregator produced by `DataAggregator.__init__`. -/
def initAgg : AggState := {}

/-- `DataAggregator.is_duplicate`: checks the recomputed hash against
`seen_hashes`, adding it when not present. -/
def is_duplicate (s : AggState) (e : Event) : AggState × Bool :=
  let event_hash := generate_event_hash e
  if event_hash ∈ s.seen_hashes then (s, true)
  else ({ s with seen_hashes := event_hash :: s.seen_hashes }, false)

/-- The per-record mutation done at the top of the `add_events` loop:
set `source`, then set `id` to the fingerprint hash if absent. -/
def processRecord (e : Event) (source : Str) : Event :=
  let e1 : Event := { e with source := some source }
  if e1.id.isSome then e1 else { e1 with id := some (generate_event_hash e1) }

/-- `DataAggregator.add_events`: processes each record in order,
returning the new state together with the `added` and `duplicates`
counters. -/
def add_events (s : AggState) (events : List Event) (source : Str) :
    AggState × Nat × Nat :=
  match events with
  | [] => (s, 0, 0)
  | event :: rest =>
    let event := processRecord event source
    let step := is_duplicate s event
    if step.2 then
      let tail := add_events step.1 rest source
      (tail.1, tail.2.1, tail.2.2 + 1)
    else
      let s1 : AggState := { step.1 with events := step.1.events ++ [event] }
      let tail := add_events s1 rest source
      (tail.1, tail.2.1 + 1, tail.2.2)

/-- A whole run: a sequence of `add_events` calls, each with its event
list and source string, applied in order. -/
def runCalls (s : AggState) (calls : List (List Event × Str)) : AggState :=
  calls.foldl (fun st c => (add_events st c.1 c.2).1) s

/-- The stream of records submitted over a sequence of calls, each in its
processed form (source stamped, id filled). -/
def submittedStream (calls : List (List Event × Str)) : List Event :=
  (calls.map (fun c => c.1.map (fun e => processRecord e c.2))).flatten

/-- Specification-side first-occurrence filter: keeps a record iff its
fingerprint hash was not seen before it in the stream. -/
def dedupFirst (seen : List Str) : List Event → List Event
  | [] => []
  | e :: es =>
    if generate_event_hash e ∈ seen then dedupFirst seen es
    else e :: dedupFirst (generate_event_hash e :: seen) es

/-- Specification-side evolution of the seen-hash set over a stream. -/
def seenUpdate (seen : List Str) : List Event → List Str
  | [] => seen
  | e :: es =>
    if generate_event_hash e ∈ seen then seenUpdate seen es
    else seenUpdate (generate_event_hash e :: seen) es

/-- Two records agree on the dedup tuple
`(lower(title), date, start_time, lower(venue.name))`. -/
def sameTuple (e1 e2 : Event) : Prop :=
  strLower e1.title = strLower e2.title ∧ e1.date = e2.date ∧
  e1.start_time = e2.start_time ∧ strLower e1.venue.name = strLower e2.venue.name

instance (e1 e2 : Event) : Decidable (sameTuple e1 e2) := by
  unfold sameTuple; infer_instance

/-- The record of spec Scenario A. -/
def evStorytime : Event :=
  { title := "Storytime".data, date := "2025-11-05".data,
    start_time := "10:00".data, venue := ⟨"Main Library".data⟩ }

/-- First record for the preset-id experiment: no `id` key, so
`add_events` fills it with the fingerprint hash. -/
def evA : Event :=
  { title := "a".data, date := "d".data, start_time := "t".data,
    venue := ⟨"v".data⟩ }

/-- Second record: a different dedup tuple (title "b"), but arriving
with its `id` key preset to `evA`'s fingerprint hash. -/
def evB : Event :=
  { title := "b".data, date := "d".data, start_time := "t".data,
    venue := ⟨"v".data⟩, id := some (generate_event_hash evA) }

end Dedup

/-! ### Validation model: DataAggregator.validate_events -/

namespace Validate

/-- A venue dict as validation sees it: `validate_events` only tests the
presence of the `venue` key, so the fields are all optional and an
"empty dict" is the all-`none` record. -/
structure Venue where
  name : Option String := none
  address : Option String := none
  neighborhood : Option String := none
  phone : Option String := none
  lat : Option Int := none
  lng : Option Int := none
  place_id : Option String := none
  deriving DecidableEq, Repr

/-- An event record as `validate_events` sees it: every key may be
absent (`none`).  `website = some none` is the key present with value
`null` (the code distinguishes presence from truthiness here). -/
structure Event where
  title : Option String := none
  date : Option String := none
  start_time : Option String := none
  venue : Option Venue := none
  age_groups : Option (List String) := none
  category : Option String := none
  icon : Option String := none
  indoor_outdoor : Option String := none
  organized_by : Option String := none
  website : Option (Option String) := none
  deriving DecidableEq, Repr

/-- `DataAggregator.validate_events`: drop a record unless all of
`title`, `date`, `start_time`, `venue` are present keys; back-fill
`age_groups` when absent or falsy (empty list), and `category`, `icon`,
`indoor_outdoor`, `organized_by`, `website` when absent. -/
def validate_events : List Event → List Event
  | [] => []
  | event :: rest =>
    if event.title.isSome && event.date.isSome &&
        event.start_time.isSome && event.venue.isSome then
      let e1 := match event.age_groups with
        | none => { event with age_groups := some ["All Ages"] }
        | some l =>
          if l.isEmpty then { event with age_groups := some ["All Ages"] } else event
      let e2 := match e1.category with
        | none => { e1 with category := some "Entertainment" }
        | some _ => e1
      let e3 := match e2.icon with
        | none => { e2 with icon := some "🎉" }
        | some _ => e2
      let e4 := match e3.indoor_outdoor with
        | none => { e3 with indoor_outdoor := some "Indoor" }
        | some _ => e3
      let e5 := match e4.organized_by with
        | none => { e4 with organized_by := some "Community Event" }
        | some _ => e4
      let e6 := match e5.website with
        | none => { e5 with website := some none }
        | some _ => e5
      e6 :: validate_events rest
    else validate_events rest

/-- Specification-side: the record has all four required keys present. -/
def requiredPresent (e : Event) : Bool :=
  e.title.isSome && e.date.isSome && e.start_time.isSome && e.venue.isSome

/-- Specification-side description of the per-record back-filling. -/
def fixEvent (e : Event) : Event :=
  { e with
    age_groups := match e.age_groups with
      | none => some ["All Ages"]
      | some l => if l.isEmpty then some ["All Ages"] else some l
    category := some (e.category.getD "Entertainment")
    icon := some (e.icon.getD "🎉")
    indoor_outdoor := some (e.indoor_outdoor.getD "Indoor")
    organized_by := some (e.organized_by.getD "Community Event")
    website := some (e.website.getD none) }

/-- Concrete record used to refute the "already-present fields are left
unchanged" reading of the spec: every field is a present key, but
`age_groups` is present with the falsy value `[]`. -/
def evEmptyAges : Event :=
  { title := some "Storytime", date := some "2025-11-05",
    start_time := some "10:00", venue := some { name := some "Main Library" },
    age_groups := some [], category := some "Arts", icon := some "A",
    indoor_outdoor := some "Outdoor", organized_by := some "TPL",
    website := some (some "http://x") }

end Validate

/-! ### Enrichment client model: PlaceIDLookup (place_id_lookup.py) -/

namespace PlaceID

/-- A cache entry (`place_id_cache.json` value).  `looked_up_at` is a
wall-clock timestamp with no behavioural role and is not modelled; a
google field that is absent from the dict and one stored as `null` are
both `none` (the code only ever reads them with `.get`, which returns
`None` in both cases). -/
structure CacheEntry where
  place_id : Option String := none
  venue_name : Str := []
  address : Str := []
  google_name : Option String := none
  google_address : Option String := none
  google_lat : Option Int := none
  google_lng : Option Int := none
  deriving DecidableEq, Repr

/-- The `location` object of a place in a Places API (New) response. -/
structure PlaceLocation where
  latitude : Option Int := none
  longitude : Option Int := none
  deriving DecidableEq, Repr

/-- One element of the `places` array of a Places API (New) response;
`displayName` is modelled by its `text` field. -/
structure Place where
  id : Option String := none
  displayName : Option String := none
  formattedAddress : Option String := none
  location : Option PlaceLocation := none
  deriving DecidableEq, Repr

/-- The outcome of the HTTP POST in `_call_places_api`: a parsed 2xx
JSON body with its `places` array (absent modelled as `[]`), an HTTP
error status raised by `raise_for_status`, or a network/timeout error
(`requests.exceptions.RequestException`). -/
inductive ApiResponse where
  | ok (places : List Place)
  | httpError (status : Nat)
  | requestError
  deriving DecidableEq, Repr

/-- The dict returned by `_call_places_api` on the non-`None` path.  In
the `place_id`-falsy branch the Python dict has only the `place_id` key;
since the base cache entry has no google keys either, representing that
dict with all google fields `none` gives the same `update` result. -/
structure ApiResult where
  place_id : Option String := none
  google_name : Option String := none
  google_address : Option String := none
  google_lat : Option Int := none
  google_lng : Option Int := none
  deriving DecidableEq, Repr

/-- Python truthiness of an optional string (`None` and `""` falsy). -/
def truthyStr : Option String → Bool
  | some s => !(s == "")
  | none => false

/-- Python truthiness of an optional coordinate (`None` and `0` falsy). -/
def truthyNum : Option Int → Bool
  | some v => !(v == 0)
  | none => false

/-- `PlaceIDLookup._call_places_api`, as a function of the HTTP outcome:
empty `places`, HTTP errors and request errors all yield `None`;
otherwise the first place is parsed, with the full metadata dict only
when its `id` is truthy. -/
def _call_places_api (resp : ApiResponse) : Option ApiResult :=
  match resp with
  | .ok places =>
    match places with
    | [] => none
    | place :: _ =>
      let place_id := place.id
      if truthyStr place_id then
        let location := place.location.getD {}
        some { place_id := place_id
               google_name := place.displayName
               google_address := place.formattedAddress
               google_lat := location.latitude
               google_lng := location.longitude }
      else
        some { place_id := place_id }
  | .httpError _ => none
  | .requestError => none

/-- The state of a `PlaceIDLookup` instance: credentials, in-memory
cache (an association list modelling the dict), the persisted cache file
contents (`disk`, rewritten by `_save_cache`), and the two counters. -/
structure LookupState where
  api_key : Option String := none
  cache : List (Str × CacheEntry) := []
  disk : List (Str × CacheEntry) := []
  api_calls : Nat := 0
  cache_hits : Nat := 0
  deriving DecidableEq, Repr

/-- Dict read (`self.cache[cache_key]` / `.get`). -/
def getEntry (cache : List (Str × CacheEntry)) (k : Str) : Option CacheEntry :=
  match cache.find? (fun p => p.1 == k) with
  | some p => some p.2
  | none => none

/-- Dict write (`self.cache[cache_key] = entry`), newest binding first. -/
def putEntry (cache : List (Str × CacheEntry)) (k : Str) (v : CacheEntry) :
    List (Str × CacheEntry) :=
  (k, v) :: cache

/-- `PlaceIDLookup._generate_cache_key`: the md5 hexdigest of
`f"{name.lower().strip()}|{address.lower().strip()}"`, with md5 again
modelled as the identity on the key string. -/
def _generate_cache_key (venue_name address : Str) : Str :=
  pyStrip (strLower venue_name) ++ ['|'] ++ pyStrip (strLower address)

/-- Python `dict.update(api_result)` on the base cache entry. -/
def updateEntry (base : CacheEntry) (r : ApiResult) : CacheEntry :=
  { base with
    place_id := r.place_id
    google_name := r.google_name
    google_address := r.google_address
    google_lat := r.google_lat
    google_lng := r.google_lng }

/-- `PlaceIDLookup.lookup_place_id`.  `resp` is the outcome the network
would produce if the API were called; the cache-hit and missing-key
branches never consult it.  `_save_cache` is the `disk := cache'`
update.  Rate limiting only sleeps and is not modelled. -/
def lookup_place_id (s : LookupState) (venue_name address : Str)
    (lat lng : Option Int) (resp : ApiResponse) :
    LookupState × Option String :=
  let cache_key := _generate_cache_key venue_name address
  match getEntry s.cache cache_key with
  | some cached_data =>
    ({ s with cache_hits := s.cache_hits + 1 }, cached_data.place_id)
  | none =>
    if !(truthyStr s.api_key) then (s, none)
    else
      let api_result := _call_places_api resp
      let base : CacheEntry :=
        { place_id := none, venue_name := venue_name, address := address }
      let cache_entry :=
        match api_result with
        | some r => updateEntry base r
        | none => base
      let cache' := putEntry s.cache cache_key cache_entry
      ({ s with cache := cache', disk := cache', api_calls := s.api_calls + 1 },
       cache_entry.place_id)

/-- Specification-side: the cache entry that the miss path of
`lookup_place_id` writes for a given venue/address and API outcome. -/
def writtenEntry (venue_name address : Str) (resp : ApiResponse) : CacheEntry :=
  match _call_places_api resp with
  | some r =>
    updateEntry { place_id := none, venue_name := venue_name, address := address } r
  | none => { place_id := none, venue_name := venue_name, address := address }

/-- A venue dict as `enrich_venue` sees it. -/
structure Venue where
  name : Option Str := none
  address : Option Str := none
  neighborhood : Option String := none
  phone : Option String := none
  lat : Option Int := none
  lng : Option Int := none
  place_id : Option String := none
  deriving DecidableEq, Repr

/-- `PlaceIDLookup.enrich_venue`: looks up the venue's name/address,
writes `place_id` when truthy, and overwrites `lat`/`lng` with the
cached google coordinates when those are truthy and at least one of the
venue's own coordinates was falsy. -/
def enrich_venue (s : LookupState) (venue : Venue) (resp : ApiResponse) :
    LookupState × Venue :=
  let venue_name := venue.name.getD []
  let address := venue.address.getD []
  let lat := venue.lat
  let lng := venue.lng
  if venue_name.isEmpty || address.isEmpty then (s, venue)
  else
    let step := lookup_place_id s venue_name address lat lng resp
    let s' := step.1
    let place_id := step.2
    if truthyStr place_id then
      let venue1 : Venue := { venue with place_id := place_id }
      let cache_key := _generate_cache_key venue_name address
      let cached_data := (getEntry s'.cache cache_key).getD {}
      let google_lat := cached_data.google_lat
      let google_lng := cached_data.google_lng
      if truthyNum google_lat && truthyNum google_lng then
        if !(truthyNum lat) || !(truthyNum lng) then
          (s', { venue1 with lat := google_lat, lng := google_lng })
        else (s', venue1)
      else (s', venue1)
    else (s', venue)

/-- A lookup state whose cache already resolves the pair ("A", "B") to
place id "P" with google coordinates (10, 20): used to exercise the
coordinate-backfill path of `enrich_venue` deterministically. -/
def sCached : LookupState :=
  { api_key := some "K"
    cache := [(_generate_cache_key "A".data "B".data,
               { place_id := some "P", venue_name := "A".data, address := "B".data,
                 google_lat := some 10, google_lng := some 20 })] }

/-- A venue that already has a latitude but no longitude. -/
def vLatOnly : Venue :=
  { name := some "A".data, address := some "B".data, lat := some 43 }

/-- A venue that already has both coordinates. -/
def vBoth : Venue :=
  { name := some "A".data, address := some "B".data,
    lat := some 43, lng := some 44 }

/-- A freshly constructed lookup service with credentials configured
and an empty cache. -/
def sFresh : LookupState := { api_key := some "K" }

/-- A freshly constructed lookup service with no credentials. -/
def sNoKey : LookupState := {}

end PlaceID

/-! ### Sharder model: split_by_week.py -/

namespace Shard

/-- An event as the sharder sees it: only `date` is read.  `date = none`
models a record whose `date` key is missing or fails `strptime` (the
`try`/`except: continue` path); otherwise the parsed date is a day
number (an integer, so that `timedelta(days = k)` is `+ k`).  `title`
is carried along to tell records apart. -/
structure Event where
  date : Option Int
  title : String := ""
  deriving DecidableEq, Repr

/-- `split_events_by_week` (split_by_week.py): the per-event `if`/`elif`
chain over the four week windows, preserving input order within each
week; events outside all windows (or with unparsable dates) land in no
week. -/
def split_events_by_week : List Event → Int →
    List Event × List Event × List Event × List Event
  | [], _ => ([], [], [], [])
  | e :: rest, today =>
    let r := split_events_by_week rest today
    match e.date with
    | none => r
    | some event_date =>
      if today ≤ event_date ∧ event_date < today + 7 then
        (e :: r.1, r.2.1, r.2.2.1, r.2.2.2)
      else if today + 7 ≤ event_date ∧ event_date < today + 14 then
        (r.1, e :: r.2.1, r.2.2.1, r.2.2.2)
      else if today + 14 ≤ event_date ∧ event_date < today + 21 then
        (r.1, r.2.1, e :: r.2.2.1, r.2.2.2)
      else if today + 21 ≤ event_date ∧ event_date < today + 28 then
        (r.1, r.2.1, r.2.2.1, e :: r.2.2.2)
      else r

/-- Specification-side window test: the event's date parses and falls in
week `n`'s window `[today + 7n, today + 7(n+1))`. -/
def inWindow (today : Int) (n : Nat) (e : Event) : Bool :=
  match e.date with
  | some d => decide (today + 7 * (n : Int) ≤ d ∧ d < today + 7 * ((n : Int) + 1))
  | none => false

/-- An event 30 days out: in the canonical feed but beyond all shards. -/
def evFarOut : Event := { date := some 30, title := "far" }

end Shard

/-! ## Theorems -/

namespace Dedup

/-- Stamping `source` and filling `id` does not change the fingerprint. -/
theorem hash_processRecord (e : Event) (src : Str) :
    generate_event_hash (processRecord e src) = generate_event_hash e := by
  simp only [processRecord]
  split <;> rfl

/-- How one `add_events` call transforms the aggregator state: the kept
events are the first occurrences (by fingerprint) of the processed
records, appended in order, and `seen_hashes` accumulates their hashes. -/
theorem add_events_state (l : List Event) (s : AggState) (src : Str) :
    (add_events s l src).1.events
      = s.events ++ dedupFirst s.seen_hashes (l.map (fun e => processRecord e src))
    ∧ (add_events s l src).1.seen_hashes
      = seenUpdate s.seen_hashes (l.map (fun e => processRecord e src)) := by
  induction l generalizing s with
  | nil => simp [add_events, dedupFirst, seenUpdate]
  | cons e rest ih =>
    by_cases h : generate_event_hash (processRecord e src) ∈ s.seen_hashes
    · simpa [add_events, is_duplicate, h, dedupFirst, seenUpdate] using ih s
    · have hrec := ih { s with
        events := s.events ++ [processRecord e src]
        seen_hashes := generate_event_hash (processRecord e src) :: s.seen_hashes }
      constructor
      · simp only [add_events, is_duplicate, h, if_false, ite_false, List.map_cons,
          dedupFirst]
        simp [h, hrec.1]
      · simp only [add_events, is_duplicate, h, List.map_cons, seenUpdate]
        simp [h, hrec.2]

/-- `dedupFirst` splits along concatenation of streams. -/
theorem dedupFirst_append (xs ys : List Event) (seen : List Str) :
    dedupFirst seen (xs ++ ys)
      = dedupFirst seen xs ++ dedupFirst (seenUpdate seen xs) ys := by
  induction xs generalizing seen with
  | nil => simp [dedupFirst, seenUpdate]
  | cons e es ih =>
    by_cases h : generate_event_hash e ∈ seen <;>
      simp [dedupFirst, seenUpdate, h, ih]

/-- `seenUpdate` splits along concatenation of streams. -/
theorem seenUpdate_append (xs ys : List Event) (seen : List Str) :
    seenUpdate seen (xs ++ ys) = seenUpdate (seenUpdate seen xs) ys := by
  induction xs generalizing seen with
  | nil => simp [seenUpdate]
  | cons e es ih =>
    by_cases h : generate_event_hash e ∈ seen <;> simp [seenUpdate, h, ih]

/-- A run of `add_events` calls keeps exactly the first occurrence of
each fingerprint across the whole submitted stream. -/
theorem runCalls_state (calls : List (List Event × Str)) (s : AggState) :
    (runCalls s calls).events
      = s.events ++ dedupFirst s.seen_hashes (submittedStream calls)
    ∧ (runCalls s calls).seen_hashes
      = seenUpdate s.seen_hashes (submittedStream calls) := by
  induction calls generalizing s with
  | nil => simp [runCalls, submittedStream, dedupFirst, seenUpdate]
  | cons c cs ih =>
    have hstep := add_events_state c.1 s c.2
    have hrec := ih (add_events s c.1 c.2).1
    have hstream : submittedStream (c :: cs)
        = c.1.map (fun e => processRecord e c.2) ++ submittedStream cs := by
      simp [submittedStream]
    have hrun : runCalls s (c :: cs) = runCalls (add_events s c.1 c.2).1 cs := by
      simp [runCalls]
    rw [hrun, hstream, dedupFirst_append, seenUpdate_append]
    constructor
    · rw [hrec.1, hstep.1, hstep.2, List.append_assoc]
    · rw [hrec.2, hstep.2]

/-- When every record of a batch has an already-seen fingerprint, the
batch adds nothing and counts every record as a duplicate. -/
theorem add_events_all_dup (l : List Event) (s : AggState) (src : Str)
    (h : ∀ e ∈ l, generate_event_hash e ∈ s.seen_hashes) :
    add_events s l src = (s, 0, l.length) := by
  induction l with
  | nil => simp [add_events]
  | cons e rest ih =>
    have he : generate_event_hash (processRecord e src) ∈ s.seen_hashes := by
      rw [hash_processRecord]; exact h e (by simp)
    have hrest := ih (fun x hx => h x (by simp [hx]))
    simp [add_events, is_duplicate, he, hrest]

/-- Records with the same dedup tuple have the same fingerprint. -/
theorem sameTuple_hash (e1 e2 : Event) (h : sameTuple e1 e2) :
    generate_event_hash e1 = generate_event_hash e2 := by
  obtain ⟨h1, h2, h3, h4⟩ := h
  unfold strLower at h1 h4
  unfold generate_event_hash strLower
  simp only [List.map_append]
  rw [h1, h2, h3, h4]

/-- C1: across any sequence of `add_events` calls on a fresh aggregator
the retained list is exactly the first occurrence, in submission order,
of each dedup fingerprint (`dedupFirst`); records with identical
`(lower(title), date, start_time, lower(venue.name))` tuples have equal
fingerprints (`sameTuple_hash`), so only the first such record is
retained.  And a batch of records all sharing one tuple, whose
fingerprint is not yet seen, reports `added = 1` and
`duplicates = n - 1`. -/
theorem C1_only_first_retained_and_counts :
    (∀ calls : List (List Event × Str),
        (runCalls initAgg calls).events
          = dedupFirst [] (submittedStream calls))
    ∧ ∀ (s : AggState) (e : Event) (rest : List Event) (src : Str),
        (∀ x ∈ e :: rest, ∀ y ∈ e :: rest, sameTuple x y) →
        generate_event_hash e ∉ s.seen_hashes →
        (add_events s (e :: rest) src).2.1 = 1
          ∧ (add_events s (e :: rest) src).2.2 = (e :: rest).length - 1 := by
  constructor
  · intro calls
    simpa [initAgg] using (runCalls_state calls initAgg).1
  · intro s e rest src hsame hnot
    have hfresh : generate_event_hash (processRecord e src) ∉ s.seen_hashes := by
      rwa [hash_processRecord]
    have hdups : add_events { s with
        events := s.events ++ [processRecord e src]
        seen_hashes := generate_event_hash (processRecord e src) :: s.seen_hashes }
        rest src
        = ({ s with
            events := s.events ++ [processRecord e src]
            seen_hashes :=
              generate_event_hash (processRecord e src) :: s.seen_hashes },
           0, rest.length) := by
      apply add_events_all_dup
      intro x hx
      have hx1 : sameTuple x e := hsame x (by simp [hx]) e (by simp)
      have hxe : generate_event_hash x = generate_event_hash e :=
        sameTuple_hash x e hx1
      simp [hxe, hash_processRecord]
    constructor
    · simp [add_events, is_duplicate, hfresh, hdups]
    · simp [add_events, is_duplicate, hfresh, hdups]

/-- Witness for C1: three copies of the Scenario A record submitted
together on a fresh aggregator give `added = 1`, `duplicates = 2`. -/
theorem C1_witness :
    (add_events initAgg [evStorytime, evStorytime, evStorytime] "TPL".data).2.1 = 1
    ∧ (add_events initAgg [evStorytime, evStorytime, evStorytime] "TPL".data).2.2
        = 2 :=
  C1_only_first_retained_and_counts.2 initAgg evStorytime [evStorytime, evStorytime]
    "TPL".data (by decide) (by decide)

/-- C2 (amended): a record is dropped and counted as a duplicate if and
only if the fingerprint hash recomputed from its
`(title, date, start_time, venue.name)` is already in the in-run
seen-set; the `id` field (preset or not) plays no role in the
fingerprint. -/
theorem C2_dedup_by_recomputed_hash (s : AggState) (e : Event) (src : Str)
    (i : Option Str) :
    generate_event_hash { e with id := i } = generate_event_hash e
    ∧ (add_events s [e] src).2
        = (if generate_event_hash e ∈ s.seen_hashes then (0, 1) else (1, 0))
    ∧ (add_events s [e] src).1.events
        = (if generate_event_hash e ∈ s.seen_hashes then s.events
           else s.events ++ [processRecord e src])
    ∧ (add_events s [e] src).1.seen_hashes
        = (if generate_event_hash e ∈ s.seen_hashes then s.seen_hashes
           else generate_event_hash e :: s.seen_hashes) := by
  refine ⟨rfl, ?_, ?_, ?_⟩ <;>
    by_cases h : generate_event_hash e ∈ s.seen_hashes <;>
      simp [add_events, is_duplicate, hash_processRecord, h]

/-- C2 counterexample: `evB` arrives with its `id` key preset to `evA`'s
fingerprint, which is in the seen-set after `evA` was added; the claim
as stated then requires `evB` to be dropped as a duplicate, but the code
keeps it (`added = 1`, `duplicates = 0`, two retained events), because
deduplication uses the recomputed hash and never the `id` value. -/
theorem C2_counterexample :
    (processRecord evB "s2".data).id = some (generate_event_hash evA)
    ∧ generate_event_hash evA
        ∈ (add_events initAgg [evA] "s1".data).1.seen_hashes
    ∧ (add_events (add_events initAgg [evA] "s1".data).1 [evB] "s2".data).2
        = (1, 0)
    ∧ (add_events (add_events initAgg [evA] "s1".data).1
          [evB] "s2".data).1.events.length = 2 := by
  decide

end Dedup

namespace Validate

/-- One step of `validate_events`: a record with all four required keys
present is kept and back-filled exactly as `fixEvent` describes, any
other record is dropped. -/
theorem validate_events_cons (e : Event) (rest : List Event) :
    validate_events (e :: rest)
      = if requiredPresent e then fixEvent e :: validate_events rest
        else validate_events rest := by
  rcases e with ⟨t, d, st, v, ag, c, ic, ind, org, w⟩
  by_cases h : (t.isSome && d.isSome && st.isSome && v.isSome) = true
  · rcases ag with _ | (_ | ⟨a, as⟩) <;> rcases c with _ | c <;>
      rcases ic with _ | ic <;> rcases ind with _ | ind <;>
        rcases org with _ | org <;> rcases w with _ | w <;>
          simp [validate_events, requiredPresent, fixEvent, h]
  · simp [validate_events, requiredPresent, h]

/-- `validate_events` keeps exactly the records with the four required
keys, in order, each back-filled by `fixEvent`. -/
theorem validate_events_eq (events : List Event) :
    validate_events events = (events.filter requiredPresent).map fixEvent := by
  induction events with
  | nil => rfl
  | cons e rest ih =>
    rw [validate_events_cons, List.filter_cons]
    by_cases h : requiredPresent e = true <;> simp [h, ih]

/-- Back-filling never adds or removes one of the required keys. -/
theorem requiredPresent_fixEvent (e : Event) :
    requiredPresent (fixEvent e) = requiredPresent e := rfl

/-- Back-filling an already back-filled record changes nothing. -/
theorem fixEvent_fixEvent (e : Event) : fixEvent (fixEvent e) = fixEvent e := by
  rcases e with ⟨t, d, st, v, ag, c, ic, ind, org, w⟩
  rcases ag with _ | (_ | ⟨a, as⟩) <;> rcases c with _ | c <;>
    rcases ic with _ | ic <;> rcases ind with _ | ind <;>
      rcases org with _ | org <;> rcases w with _ | w <;> rfl

/-- C6: `validate_events` is idempotent: a second run drops nothing and
changes no field. -/
theorem C6_validate_events_idempotent (events : List Event) :
    validate_events (validate_events events) = validate_events events := by
  induction events with
  | nil => rfl
  | cons e rest ih =>
    rw [validate_events_cons]
    by_cases h : requiredPresent e = true
    · simp only [h, if_true]
      rw [validate_events_cons, requiredPresent_fixEvent]
      simp only [h, if_true]
      rw [fixEvent_fixEvent, ih]
    · simp only [h, Bool.false_eq_true, if_false]
      exact ih

/-- C5 (amended): `validate_events` drops exactly the records missing
one of the keys `title`, `date`, `start_time`, `venue`, and back-fills
each retained record as follows: `age_groups` becomes `["All Ages"]`
when the key is absent or its value is empty (so a present-but-empty
`age_groups` is replaced, not left unchanged), while `category`,
`icon`, `indoor_outdoor`, `organized_by` and `website` get their
defaults only when the key is absent; all other present values are kept
unchanged. -/
theorem C5_validate_drop_and_defaults :
    (∀ events : List Event,
        validate_events events = (events.filter requiredPresent).map fixEvent)
    ∧ ∀ e : Event,
        (fixEvent e).title = e.title ∧ (fixEvent e).date = e.date
        ∧ (fixEvent e).start_time = e.start_time ∧ (fixEvent e).venue = e.venue
        ∧ (fixEvent e).age_groups
            = (if e.age_groups = none ∨ e.age_groups = some [] then
                 some ["All Ages"] else e.age_groups)
        ∧ (fixEvent e).category
            = (if e.category = none then some "Entertainment" else e.category)
        ∧ (fixEvent e).icon = (if e.icon = none then some "🎉" else e.icon)
        ∧ (fixEvent e).indoor_outdoor
            = (if e.indoor_outdoor = none then some "Indoor" else e.indoor_outdoor)
        ∧ (fixEvent e).organized_by
            = (if e.organized_by = none then some "Community Event"
               else e.organized_by)
        ∧ (fixEvent e).website
            = (if e.website = none then some none else e.website) := by
  refine ⟨validate_events_eq, fun e => ?_⟩
  rcases e with ⟨t, d, st, v, ag, c, ic, ind, org, w⟩
  rcases ag with _ | (_ | ⟨a, as⟩) <;> rcases c with _ | c <;>
    rcases ic with _ | ic <;> rcases ind with _ | ind <;>
      rcases org with _ | org <;> rcases w with _ | w <;>
        simp [fixEvent]

/-- C5 counterexample: `evEmptyAges` has every key present (so the claim
as stated requires it to pass through unchanged), yet `validate_events`
replaces its present-but-empty `age_groups` with `["All Ages"]`. -/
theorem C5_counterexample :
    evEmptyAges.age_groups = some []
    ∧ validate_events [evEmptyAges] ≠ [evEmptyAges]
    ∧ (validate_events [evEmptyAges]).map (fun e => e.age_groups)
        = [some ["All Ages"]] := by
  decide

/-- C10: the drop test of `validate_events` checks only the presence of
the keys `title`, `date`, `start_time` and `venue`, never their values:
any record with all four keys present — including empty or otherwise
falsy values such as `title = ""` or an empty `venue` dict — is
retained (and back-filled), not dropped. -/
theorem C10_presence_only (t d st : String) (v : Venue)
    (ag : Option (List String)) (c ic ind org : Option String)
    (w : Option (Option String)) :
    validate_events
        [{ title := some t, date := some d, start_time := some st,
           venue := some v, age_groups := ag, category := c, icon := ic,
           indoor_outdoor := ind, organized_by := org, website := w }]
      = [fixEvent
          { title := some t, date := some d, start_time := some st,
            venue := some v, age_groups := ag, category := c, icon := ic,
            indoor_outdoor := ind, organized_by := org, website := w }] := by
  rw [validate_events_cons]
  simp [requiredPresent, validate_events]

end Validate

namespace PlaceID

/-- Reading back the key just written returns the written entry. -/
theorem getEntry_putEntry (cache : List (Str × CacheEntry)) (k : Str)
    (v : CacheEntry) : getEntry (putEntry cache k v) k = some v := by
  simp [getEntry, putEntry, List.find?]

/-- The miss path of `lookup_place_id` with credentials configured:
one API call, the entry `writtenEntry` stored under the key, the cache
persisted, and the entry's `place_id` returned. -/
theorem lookup_miss (s : LookupState) (venue_name address : Str)
    (lat lng : Option Int) (resp : ApiResponse)
    (hmiss : getEntry s.cache (_generate_cache_key venue_name address) = none)
    (hkey : truthyStr s.api_key = true) :
    lookup_place_id s venue_name address lat lng resp
      = ({ s with
            cache := putEntry s.cache (_generate_cache_key venue_name address)
                       (writtenEntry venue_name address resp)
            disk := putEntry s.cache (_generate_cache_key venue_name address)
                       (writtenEntry venue_name address resp)
            api_calls := s.api_calls + 1 },
         (writtenEntry venue_name address resp).place_id) := by
  simp only [lookup_place_id, hmiss, hkey, Bool.not_true, Bool.false_eq_true,
    if_false, writtenEntry]

/-- The hit path of `lookup_place_id`: no state change except the
`cache_hits` counter, and the stored `place_id` is returned. -/
theorem lookup_hit (s : LookupState) (venue_name address : Str)
    (lat lng : Option Int) (resp : ApiResponse) (entry : CacheEntry)
    (hhit : getEntry s.cache (_generate_cache_key venue_name address) = some entry) :
    lookup_place_id s venue_name address lat lng resp
      = ({ s with cache_hits := s.cache_hits + 1 }, entry.place_id) := by
  simp only [lookup_place_id, hhit]

/-- C3: with credentials configured and the pair's key not cached, two
identical lookups on fresh counters make exactly one external call
(`api_calls = 1` already after the first, still `1` after the second),
the second is a cache hit (`cache_hits = 1`) that leaves the cache
unchanged and returns the stored entry's `place_id` — the same value
the first call returned — whatever the first call's outcome was
(success, zero results, or error: `resp` is arbitrary). -/
theorem C3_cache_round_trip (s : LookupState) (venue_name address : Str)
    (lat lng lat2 lng2 : Option Int) (resp resp2 : ApiResponse)
    (hmiss : getEntry s.cache (_generate_cache_key venue_name address) = none)
    (hkey : truthyStr s.api_key = true)
    (hac : s.api_calls = 0) (hch : s.cache_hits = 0) :
    (lookup_place_id s venue_name address lat lng resp).1.api_calls = 1
    ∧ (lookup_place_id (lookup_place_id s venue_name address lat lng resp).1
          venue_name address lat2 lng2 resp2).1.api_calls = 1
    ∧ (lookup_place_id (lookup_place_id s venue_name address lat lng resp).1
          venue_name address lat2 lng2 resp2).1.cache_hits = 1
    ∧ (lookup_place_id (lookup_place_id s venue_name address lat lng resp).1
          venue_name address lat2 lng2 resp2).1.cache
        = (lookup_place_id s venue_name address lat lng resp).1.cache
    ∧ (∃ entry,
        getEntry (lookup_place_id s venue_name address lat lng resp).1.cache
            (_generate_cache_key venue_name address) = some entry
        ∧ (lookup_place_id (lookup_place_id s venue_name address lat lng resp).1
              venue_name address lat2 lng2 resp2).2 = entry.place_id)
    ∧ (lookup_place_id (lookup_place_id s venue_name address lat lng resp).1
          venue_name address lat2 lng2 resp2).2
        = (lookup_place_id s venue_name address lat lng resp).2 := by
  have h1 := lookup_miss s venue_name address lat lng resp hmiss hkey
  have hget : getEntry (lookup_place_id s venue_name address lat lng resp).1.cache
      (_generate_cache_key venue_name address)
      = some (writtenEntry venue_name address resp) := by
    rw [h1]
    exact getEntry_putEntry s.cache _ _
  have h2 := lookup_hit (lookup_place_id s venue_name address lat lng resp).1
    venue_name address lat2 lng2 resp2 (writtenEntry venue_name address resp) hget
  refine ⟨?_, ?_, ?_, ?_, ⟨writtenEntry venue_name address resp, hget, ?_⟩, ?_⟩
  · rw [h1]; simp [hac]
  · rw [h2, h1]; simp [hac]
  · rw [h2, h1]; simp [hch]
  · rw [h2]
  · rw [h2]
  · rw [h2, h1]

/-- Witness for C3: a fresh client, the Scenario B venue, a first call
that yields zero results, and a second call that would error if it
reached the network. -/
theorem C3_witness :
    (lookup_place_id sFresh "ROM".data "100 Queens Park".data none none
        (.ok [])).1.api_calls = 1
    ∧ (lookup_place_id (lookup_place_id sFresh "ROM".data "100 Queens Park".data
          none none (.ok [])).1 "ROM".data "100 Queens Park".data none none
          .requestError).1.api_calls = 1
    ∧ (lookup_place_id (lookup_place_id sFresh "ROM".data "100 Queens Park".data
          none none (.ok [])).1 "ROM".data "100 Queens Park".data none none
          .requestError).1.cache_hits = 1
    ∧ (lookup_place_id (lookup_place_id sFresh "ROM".data "100 Queens Park".data
          none none (.ok [])).1 "ROM".data "100 Queens Park".data none none
          .requestError).1.cache
        = (lookup_place_id sFresh "ROM".data "100 Queens Park".data none none
            (.ok [])).1.cache
    ∧ (∃ entry,
        getEntry (lookup_place_id sFresh "ROM".data "100 Queens Park".data none none
            (.ok [])).1.cache
            (_generate_cache_key "ROM".data "100 Queens Park".data) = some entry
        ∧ (lookup_place_id (lookup_place_id sFresh "ROM".data "100 Queens Park".data
              none none (.ok [])).1 "ROM".data "100 Queens Park".data none none
              .requestError).2 = entry.place_id)
    ∧ (lookup_place_id (lookup_place_id sFresh "ROM".data "100 Queens Park".data
          none none (.ok [])).1 "ROM".data "100 Queens Park".data none none
          .requestError).2
        = (lookup_place_id sFresh "ROM".data "100 Queens Park".data none none
            (.ok [])).2 :=
  C3_cache_round_trip sFresh "ROM".data "100 Queens Park".data none none none none
    (.ok []) .requestError (by decide) (by decide) rfl rfl

/-- C7: with credentials configured, a lookup on an uncached key always
terminates with a cache entry stored for that key and the cache
persisted to disk immediately (`disk = cache` afterwards); zero
results, HTTP errors and network/timeout errors all map the API result
to `None`, in which case the stored `place_id` and the returned value
are both `null`. -/
theorem C7_entry_written_regardless (s : LookupState) (venue_name address : Str)
    (lat lng : Option Int) (resp : ApiResponse)
    (hmiss : getEntry s.cache (_generate_cache_key venue_name address) = none)
    (hkey : truthyStr s.api_key = true) :
    (∃ entry,
        getEntry (lookup_place_id s venue_name address lat lng resp).1.cache
            (_generate_cache_key venue_name address) = some entry
        ∧ (_call_places_api resp = none →
            entry.place_id = none
            ∧ (lookup_place_id s venue_name address lat lng resp).2 = none))
    ∧ (lookup_place_id s venue_name address lat lng resp).1.disk
        = (lookup_place_id s venue_name address lat lng resp).1.cache
    ∧ (∀ st : Nat, _call_places_api (.httpError st) = none)
    ∧ _call_places_api .requestError = none
    ∧ _call_places_api (.ok []) = none := by
  have h1 := lookup_miss s venue_name address lat lng resp hmiss hkey
  refine ⟨⟨writtenEntry venue_name address resp, ?_, fun hfail => ?_⟩, ?_, ?_, rfl, rfl⟩
  · rw [h1]
    exact getEntry_putEntry s.cache _ _
  · constructor
    · simp [writtenEntry, hfail]
    · rw [h1]
      simp [writtenEntry, hfail]
  · rw [h1]
  · intro st
    rfl

/-- Witness for C7: a network error on a fresh client still writes a
negative entry and persists it. -/
theorem C7_witness :
    (∃ entry,
        getEntry (lookup_place_id sFresh "ROM".data "100 Queens Park".data none none
            .requestError).1.cache
            (_generate_cache_key "ROM".data "100 Queens Park".data) = some entry
        ∧ (_call_places_api .requestError = none →
            entry.place_id = none
            ∧ (lookup_place_id sFresh "ROM".data "100 Queens Park".data none none
                .requestError).2 = none))
    ∧ (lookup_place_id sFresh "ROM".data "100 Queens Park".data none none
          .requestError).1.disk
        = (lookup_place_id sFresh "ROM".data "100 Queens Park".data none none
            .requestError).1.cache
    ∧ (∀ st : Nat, _call_places_api (.httpError st) = none)
    ∧ _call_places_api .requestError = none
    ∧ _call_places_api (.ok []) = none :=
  C7_entry_written_regardless sFresh "ROM".data "100 Queens Park".data none none
    .requestError (by decide) (by decide)

/-- C8: with no credential configured (or an empty one), a lookup on an
uncached key returns `null` and leaves the whole state unchanged: no
cache write, no disk write, `api_calls` and `cache_hits` untouched. -/
theorem C8_no_key_no_write (s : LookupState) (venue_name address : Str)
    (lat lng : Option Int) (resp : ApiResponse)
    (hmiss : getEntry s.cache (_generate_cache_key venue_name address) = none)
    (hkey : truthyStr s.api_key = false) :
    lookup_place_id s venue_name address lat lng resp = (s, none) := by
  simp [lookup_place_id, hmiss, hkey]

/-- Witness for C8: a client with no key configured is returned intact
together with `null`. -/
theorem C8_witness :
    lookup_place_id sNoKey "ROM".data "100 Queens Park".data none none
        (.ok [{ id := some "X" }]) = (sNoKey, none) :=
  C8_no_key_no_write sNoKey "ROM".data "100 Queens Park".data none none
    (.ok [{ id := some "X" }]) (by decide) (by decide)

/-- C9 (amended): `enrich_venue` never modifies `name`, `address`,
`neighborhood` or `phone`; a venue whose `lat` and `lng` are both
present and nonzero keeps them; `place_id` is either untouched or set
to the looked-up value, and it IS set to the looked-up value whenever
the venue has a nonempty name and address and the lookup yields a
truthy one; whenever the coordinates are changed, the new `lat`/`lng`
are the (both truthy) google coordinates of the cached entry for the
venue's key and at least one of the venue's own coordinates was
missing or zero; and conversely, in that situation the coordinates ARE
overwritten with the cached google values — so the backfill also
overwrites a venue that had one (or a zero) coordinate, not only one
with none. -/
theorem C9_enrich_frame (s : LookupState) (venue : Venue) (resp : ApiResponse) :
    (enrich_venue s venue resp).2.name = venue.name
    ∧ (enrich_venue s venue resp).2.address = venue.address
    ∧ (enrich_venue s venue resp).2.neighborhood = venue.neighborhood
    ∧ (enrich_venue s venue resp).2.phone = venue.phone
    ∧ (truthyNum venue.lat = true → truthyNum venue.lng = true →
        (enrich_venue s venue resp).2.lat = venue.lat
        ∧ (enrich_venue s venue resp).2.lng = venue.lng)
    ∧ ((enrich_venue s venue resp).2.place_id = venue.place_id
        ∨ (enrich_venue s venue resp).2.place_id
            = (lookup_place_id s (venue.name.getD []) (venue.address.getD [])
                venue.lat venue.lng resp).2)
    ∧ ((enrich_venue s venue resp).2.lat = venue.lat
          ∧ (enrich_venue s venue resp).2.lng = venue.lng
        ∨ ∃ entry,
            getEntry (lookup_place_id s (venue.name.getD [])
                  (venue.address.getD []) venue.lat venue.lng resp).1.cache
                (_generate_cache_key (venue.name.getD []) (venue.address.getD []))
              = some entry
            ∧ (enrich_venue s venue resp).2.lat = entry.google_lat
            ∧ (enrich_venue s venue resp).2.lng = entry.google_lng
            ∧ truthyNum entry.google_lat = true
            ∧ truthyNum entry.google_lng = true
            ∧ (truthyNum venue.lat = false ∨ truthyNum venue.lng = false))
    ∧ (truthyStr (lookup_place_id s (venue.name.getD []) (venue.address.getD [])
            venue.lat venue.lng resp).2 = true →
        (venue.name.getD []).isEmpty = false →
        (venue.address.getD []).isEmpty = false →
        (enrich_venue s venue resp).2.place_id
          = (lookup_place_id s (venue.name.getD []) (venue.address.getD [])
              venue.lat venue.lng resp).2)
    ∧ (∀ c : CacheEntry,
        truthyStr (lookup_place_id s (venue.name.getD []) (venue.address.getD [])
            venue.lat venue.lng resp).2 = true →
        (venue.name.getD []).isEmpty = false →
        (venue.address.getD []).isEmpty = false →
        getEntry (lookup_place_id s (venue.name.getD []) (venue.address.getD [])
              venue.lat venue.lng resp).1.cache
            (_generate_cache_key (venue.name.getD []) (venue.address.getD []))
          = some c →
        truthyNum c.google_lat = true → truthyNum c.google_lng = true →
        (truthyNum venue.lat = false ∨ truthyNum venue.lng = false) →
        (enrich_venue s venue resp).2.lat = c.google_lat
        ∧ (enrich_venue s venue resp).2.lng = c.google_lng) := by
  by_cases hempty :
      ((venue.name.getD []).isEmpty || (venue.address.getD []).isEmpty) = true
  · have he : enrich_venue s venue resp = (s, venue) := by
      simp only [enrich_venue, hempty, if_true]
    rw [he]
    refine ⟨rfl, rfl, rfl, rfl, fun _ _ => ⟨rfl, rfl⟩, Or.inl rfl, Or.inl ⟨rfl, rfl⟩,
      fun _ hn ha => ?_, fun c' _ hn ha _ _ _ _ => ?_⟩
    · rw [hn, ha] at hempty
      exact absurd hempty (by decide)
    · rw [hn, ha] at hempty
      exact absurd hempty (by decide)
  · rw [Bool.not_eq_true] at hempty
    by_cases hpid : truthyStr (lookup_place_id s (venue.name.getD [])
        (venue.address.getD []) venue.lat venue.lng resp).2 = true
    · rcases hget : getEntry (lookup_place_id s (venue.name.getD [])
          (venue.address.getD []) venue.lat venue.lng resp).1.cache
          (_generate_cache_key (venue.name.getD []) (venue.address.getD []))
          with _ | c
      · have he : enrich_venue s venue resp
            = ((lookup_place_id s (venue.name.getD []) (venue.address.getD [])
                venue.lat venue.lng resp).1,
               { venue with
                  place_id := (lookup_place_id s (venue.name.getD [])
                    (venue.address.getD []) venue.lat venue.lng resp).2 }) := by
          simp only [enrich_venue, hempty, Bool.false_eq_true, if_false, hpid,
            if_true, hget, Option.getD_none, truthyNum, Bool.false_and]
        rw [he]
        exact ⟨rfl, rfl, rfl, rfl, fun _ _ => ⟨rfl, rfl⟩, Or.inr rfl,
          Or.inl ⟨rfl, rfl⟩, fun _ _ _ => rfl,
          fun c' _ _ _ hc _ _ _ => Option.noConfusion hc⟩
      · by_cases hg : (truthyNum c.google_lat && truthyNum c.google_lng) = true
        · by_cases hv : (!(truthyNum venue.lat) || !(truthyNum venue.lng)) = true
          · have he : enrich_venue s venue resp
                = ((lookup_place_id s (venue.name.getD []) (venue.address.getD [])
                    venue.lat venue.lng resp).1,
                   { venue with
                      place_id := (lookup_place_id s (venue.name.getD [])
                        (venue.address.getD []) venue.lat venue.lng resp).2
                      lat := c.google_lat
                      lng := c.google_lng }) := by
              simp only [enrich_venue, hempty, Bool.false_eq_true, if_false, hpid,
                if_true, hget, Option.getD_some, hg, hv]
            rw [he]
            refine ⟨rfl, rfl, rfl, rfl, fun h5a h5b => ?_, Or.inr rfl, Or.inr ?_,
              fun _ _ _ => rfl, fun c' _ _ _ hc _ _ _ => ?_⟩
            · rw [h5a, h5b] at hv
              simp at hv
            · rw [Bool.and_eq_true] at hg
              refine ⟨c, rfl, rfl, rfl, hg.1, hg.2, ?_⟩
              rcases Bool.or_eq_true_iff.mp hv with h | h
              · exact Or.inl (by simpa using h)
              · exact Or.inr (by simpa using h)
            · injection hc with hcc
              exact ⟨by rw [hcc], by rw [hcc]⟩
          · rw [Bool.not_eq_true] at hv
            have he : enrich_venue s venue resp
                = ((lookup_place_id s (venue.name.getD []) (venue.address.getD [])
                    venue.lat venue.lng resp).1,
                   { venue with
                      place_id := (lookup_place_id s (venue.name.getD [])
                        (venue.address.getD []) venue.lat venue.lng resp).2 }) := by
              simp only [enrich_venue, hempty, Bool.false_eq_true, if_false, hpid,
                if_true, hget, Option.getD_some, hg, hv]
            rw [he]
            refine ⟨rfl, rfl, rfl, rfl, fun _ _ => ⟨rfl, rfl⟩, Or.inr rfl,
              Or.inl ⟨rfl, rfl⟩, fun _ _ _ => rfl,
              fun c' _ _ _ _ _ _ hvv => ?_⟩
            rcases hvv with h | h <;> simp [h] at hv
        · rw [Bool.not_eq_true] at hg
          have he : enrich_venue s venue resp
              = ((lookup_place_id s (venue.name.getD []) (venue.address.getD [])
                  venue.lat venue.lng resp).1,
                 { venue with
                    place_id := (lookup_place_id s (venue.name.getD [])
                      (venue.address.getD []) venue.lat venue.lng resp).2 }) := by
            simp only [enrich_venue, hempty, Bool.false_eq_true, if_false, hpid,
              if_true, hget, Option.getD_some, hg]
          rw [he]
          refine ⟨rfl, rfl, rfl, rfl, fun _ _ => ⟨rfl, rfl⟩, Or.inr rfl,
            Or.inl ⟨rfl, rfl⟩, fun _ _ _ => rfl,
            fun c' _ _ _ hc hga hgb _ => ?_⟩
          injection hc with hcc
          rw [hcc] at hg
          simp [hga, hgb] at hg
    · rw [Bool.not_eq_true] at hpid
      have he : enrich_venue s venue resp
          = ((lookup_place_id s (venue.name.getD []) (venue.address.getD [])
              venue.lat venue.lng resp).1, venue) := by
        simp only [enrich_venue, hempty, Bool.false_eq_true, if_false, hpid]
      rw [he]
      refine ⟨rfl, rfl, rfl, rfl, fun _ _ => ⟨rfl, rfl⟩, Or.inl rfl,
        Or.inl ⟨rfl, rfl⟩, fun hp _ _ => ?_, fun c' hp _ _ _ _ _ _ => ?_⟩
      · rw [hpid] at hp
        exact absurd hp (by decide)
      · rw [hpid] at hp
        exact absurd hp (by decide)

/-- Witness for C9 (amended): a venue with both coordinates present and
nonzero keeps them even though the cache supplies google coordinates,
while the lat-only venue gets both coordinates overwritten with the
cached google values through the positive conjuncts of the theorem. -/
theorem C9_witness :
    ((enrich_venue sCached vBoth .requestError).2.lat = some 43
      ∧ (enrich_venue sCached vBoth .requestError).2.lng = some 44)
    ∧ ((enrich_venue sCached vLatOnly .requestError).2.lat = some 10
      ∧ (enrich_venue sCached vLatOnly .requestError).2.lng = some 20) := by
  constructor
  · have h := C9_enrich_frame sCached vBoth .requestError
    exact h.2.2.2.2.1 (by decide) (by decide)
  · have h := C9_enrich_frame sCached vLatOnly .requestError
    exact h.2.2.2.2.2.2.2.2
      { place_id := some "P", venue_name := "A".data, address := "B".data,
        google_lat := some 10, google_lng := some 20 }
      (by decide) (by decide) (by decide) (by decide) (by decide) (by decide)
      (by decide)

/-- C9 counterexample: `vLatOnly` already has a latitude (43), so under
the claim as stated its coordinates must not be backfilled; but because
its longitude is missing, `enrich_venue` overwrites both coordinates
with the cached google ones — the original latitude is lost. -/
theorem C9_counterexample :
    vLatOnly.lat = some 43
    ∧ (enrich_venue sCached vLatOnly .requestError).2.lat = some 10
    ∧ (enrich_venue sCached vLatOnly .requestError).2.lng = some 20
    ∧ (enrich_venue sCached vLatOnly .requestError).2.lat ≠ vLatOnly.lat := by
  decide

end PlaceID

namespace Shard

/-- Unfolding of the window test. -/
theorem inWindow_iff (today : Int) (n : Nat) (e : Event) :
    inWindow today n e = true
      ↔ ∃ d, e.date = some d ∧ today + 7 * (n : Int) ≤ d
          ∧ d < today + 7 * ((n : Int) + 1) := by
  cases hd : e.date <;> simp [inWindow, hd]

/-- `split_events_by_week` computes, for each of the four weeks, exactly
the sublist of input events whose parsed date falls in that week's
window. -/
theorem split_eq_filter (events : List Event) (today : Int) :
    split_events_by_week events today
      = (events.filter (inWindow today 0), events.filter (inWindow today 1),
         events.filter (inWindow today 2), events.filter (inWindow today 3)) := by
  induction events with
  | nil => rfl
  | cons e rest ih =>
    rcases hd : e.date with _ | d
    · simp [split_events_by_week, hd, ih, List.filter_cons, inWindow]
    · have w0 : inWindow today 0 e = decide (today ≤ d ∧ d < today + 7) := by
        simp only [inWindow, hd]
        rw [decide_eq_decide]
        omega
      have w1 : inWindow today 1 e
          = decide (today + 7 ≤ d ∧ d < today + 14) := by
        simp only [inWindow, hd]
        rw [decide_eq_decide]
        omega
      have w2 : inWindow today 2 e
          = decide (today + 14 ≤ d ∧ d < today + 21) := by
        simp only [inWindow, hd]
        rw [decide_eq_decide]
        omega
      have w3 : inWindow today 3 e
          = decide (today + 21 ≤ d ∧ d < today + 28) := by
        simp only [inWindow, hd]
        rw [decide_eq_decide]
        omega
      simp only [split_events_by_week, hd, ih, List.filter_cons, w0, w1, w2, w3]
      by_cases c0 : today ≤ d ∧ d < today + 7
      · have n1 : ¬(today + 7 ≤ d ∧ d < today + 14) := by omega
        have n2 : ¬(today + 14 ≤ d ∧ d < today + 21) := by omega
        have n3 : ¬(today + 21 ≤ d ∧ d < today + 28) := by omega
        simp [c0, n1, n2, n3]
      · by_cases c1 : today + 7 ≤ d ∧ d < today + 14
        · have n2 : ¬(today + 14 ≤ d ∧ d < today + 21) := by omega
          have n3 : ¬(today + 21 ≤ d ∧ d < today + 28) := by omega
          simp [c0, c1, n2, n3]
        · by_cases c2 : today + 14 ≤ d ∧ d < today + 21
          · have n3 : ¬(today + 21 ≤ d ∧ d < today + 28) := by omega
            simp [c0, c1, c2, n3]
          · by_cases c3 : today + 21 ≤ d ∧ d < today + 28
            · simp [c0, c1, c2, c3]
            · simp [c0, c1, c2, c3]

/-- C4: every event placed in week `n`'s shard (`n ∈ {0,1,2,3}`) has a
parsed date in `[today + 7n, today + 7(n+1))`; each shard is a subset
of the canonical feed; the shards are pairwise disjoint; and an event
of the feed whose date is in the past or at least 28 days out appears
in no shard (while remaining in the feed, which the sharder never
modifies). -/
theorem C4_sharding (events : List Event) (today : Int) :
    (∀ e ∈ (split_events_by_week events today).1,
        ∃ d, e.date = some d ∧ today ≤ d ∧ d < today + 7)
    ∧ (∀ e ∈ (split_events_by_week events today).2.1,
        ∃ d, e.date = some d ∧ today + 7 ≤ d ∧ d < today + 14)
    ∧ (∀ e ∈ (split_events_by_week events today).2.2.1,
        ∃ d, e.date = some d ∧ today + 14 ≤ d ∧ d < today + 21)
    ∧ (∀ e ∈ (split_events_by_week events today).2.2.2,
        ∃ d, e.date = some d ∧ today + 21 ≤ d ∧ d < today + 28)
    ∧ (∀ e ∈ (split_events_by_week events today).1, e ∈ events)
    ∧ (∀ e ∈ (split_events_by_week events today).2.1, e ∈ events)
    ∧ (∀ e ∈ (split_events_by_week events today).2.2.1, e ∈ events)
    ∧ (∀ e ∈ (split_events_by_week events today).2.2.2, e ∈ events)
    ∧ (∀ e, ¬(e ∈ (split_events_by_week events today).1
            ∧ e ∈ (split_events_by_week events today).2.1))
    ∧ (∀ e, ¬(e ∈ (split_events_by_week events today).1
            ∧ e ∈ (split_events_by_week events today).2.2.1))
    ∧ (∀ e, ¬(e ∈ (split_events_by_week events today).1
            ∧ e ∈ (split_events_by_week events today).2.2.2))
    ∧ (∀ e, ¬(e ∈ (split_events_by_week events today).2.1
            ∧ e ∈ (split_events_by_week events today).2.2.1))
    ∧ (∀ e, ¬(e ∈ (split_events_by_week events today).2.1
            ∧ e ∈ (split_events_by_week events today).2.2.2))
    ∧ (∀ e, ¬(e ∈ (split_events_by_week events today).2.2.1
            ∧ e ∈ (split_events_by_week events today).2.2.2))
    ∧ (∀ e ∈ events, ∀ d : Int, e.date = some d →
        (d < today ∨ today + 28 ≤ d) →
        e ∉ (split_events_by_week events today).1
        ∧ e ∉ (split_events_by_week events today).2.1
        ∧ e ∉ (split_events_by_week events today).2.2.1
        ∧ e ∉ (split_events_by_week events today).2.2.2) := by
  rw [split_eq_filter]
  have hmem : ∀ (n : Nat) (e : Event), e ∈ events.filter (inWindow today n) →
      ∃ d, e.date = some d ∧ today + 7 * (n : Int) ≤ d
        ∧ d < today + 7 * ((n : Int) + 1) := by
    intro n e he
    exact (inWindow_iff today n e).mp (List.of_mem_filter he)
  refine ⟨?_, ?_, ?_, ?_,
    fun e he => List.mem_of_mem_filter he, fun e he => List.mem_of_mem_filter he,
    fun e he => List.mem_of_mem_filter he, fun e he => List.mem_of_mem_filter he,
    ?_, ?_, ?_, ?_, ?_, ?_, ?_⟩
  · intro e he
    obtain ⟨d, hd, h1, h2⟩ := hmem 0 e he
    exact ⟨d, hd, by omega, by omega⟩
  · intro e he
    obtain ⟨d, hd, h1, h2⟩ := hmem 1 e he
    exact ⟨d, hd, by omega, by omega⟩
  · intro e he
    obtain ⟨d, hd, h1, h2⟩ := hmem 2 e he
    exact ⟨d, hd, by omega, by omega⟩
  · intro e he
    obtain ⟨d, hd, h1, h2⟩ := hmem 3 e he
    exact ⟨d, hd, by omega, by omega⟩
  · rintro e ⟨ha, hb⟩
    obtain ⟨d, hd, h1, h2⟩ := hmem 0 e ha
    obtain ⟨d', hd', h3, h4⟩ := hmem 1 e hb
    rw [hd] at hd'
    cases hd'
    omega
  · rintro e ⟨ha, hb⟩
    obtain ⟨d, hd, h1, h2⟩ := hmem 0 e ha
    obtain ⟨d', hd', h3, h4⟩ := hmem 2 e hb
    rw [hd] at hd'
    cases hd'
    omega
  · rintro e ⟨ha, hb⟩
    obtain ⟨d, hd, h1, h2⟩ := hmem 0 e ha
    obtain ⟨d', hd', h3, h4⟩ := hmem 3 e hb
    rw [hd] at hd'
    cases hd'
    omega
  · rintro e ⟨ha, hb⟩
    obtain ⟨d, hd, h1, h2⟩ := hmem 1 e ha
    obtain ⟨d', hd', h3, h4⟩ := hmem 2 e hb
    rw [hd] at hd'
    cases hd'
    omega
  · rintro e ⟨ha, hb⟩
    obtain ⟨d, hd, h1, h2⟩ := hmem 1 e ha
    obtain ⟨d', hd', h3, h4⟩ := hmem 3 e hb
    rw [hd] at hd'
    cases hd'
    omega
  · rintro e ⟨ha, hb⟩
    obtain ⟨d, hd, h1, h2⟩ := hmem 2 e ha
    obtain ⟨d', hd', h3, h4⟩ := hmem 3 e hb
    rw [hd] at hd'
    cases hd'
    omega
  · intro e _ d hd hout
    refine ⟨fun hmem' => ?_, fun hmem' => ?_, fun hmem' => ?_, fun hmem' => ?_⟩
    · obtain ⟨d', hd', h1, h2⟩ := hmem 0 e hmem'
      rw [hd] at hd'
      cases hd'
      omega
    · obtain ⟨d', hd', h1, h2⟩ := hmem 1 e hmem'
      rw [hd] at hd'
      cases hd'
      omega
    · obtain ⟨d', hd', h1, h2⟩ := hmem 2 e hmem'
      rw [hd] at hd'
      cases hd'
      omega
    · obtain ⟨d', hd', h1, h2⟩ := hmem 3 e hmem'
      rw [hd] at hd'
      cases hd'
      omega

/-- Witness for C4: an event 30 days out is in no weekly shard. -/
theorem C4_witness :
    evFarOut ∉ (split_events_by_week [evFarOut] 0).1
    ∧ evFarOut ∉ (split_events_by_week [evFarOut] 0).2.1
    ∧ evFarOut ∉ (split_events_by_week [evFarOut] 0).2.2.1
    ∧ evFarOut ∉ (split_events_by_week [evFarOut] 0).2.2.2 :=
  (C4_sharding [evFarOut] 0).2.2.2.2.2.2.2.2.2.2.2.2.2.2 evFarOut (by decide)
    30 rfl (by decide)

end Shard

end KidsEvents
